import Mathlib

/-
Verification of the selection-to-query orchestration pipeline of the
adobe-3 frontend (PDFViewer selection polling and debouncing, and the
RightPanel Related / Insights / Podcast fetch orchestration).

The embedding models JavaScript strings as lists of characters, the
Adobe viewer polling callback and the RightPanel React component as
explicit state-transition functions.  React effect semantics are made
explicit: after every external event (prop change or promise
settlement) the component re-renders and each `useEffect` runs exactly
when its dependency array differs from the previous committed render,
reading the state snapshot of the render it was created in (state
setters only take effect at the next render).
-/

namespace AdobeOrch

/-- JavaScript strings, modelled as lists of characters. -/
abbrev Str := List Char

/-- Remove leading and trailing characters satisfying `p`. -/
def trimBy (p : Char → Bool) (s : Str) : Str :=
  ((s.dropWhile p).reverse.dropWhile p).reverse

/-- Model of JavaScript `String.prototype.trim`: remove leading and
trailing whitespace. -/
def jsTrim (s : Str) : Str := trimBy Char.isWhitespace s

/-! ### SelectionPoller (PDFViewer.setupTextSelectionMonitoring, src/unnamed/part_000 lines 428-448) -/

/-- Outcome of one `apis.getSelectedContent()` call: the promise either
resolves with a `{ data }` payload or rejects with an error carrying a
`code` string. -/
inductive PollResult
  | ok (data : Str)
  | err (code : Str)

/-- The error code the Adobe viewer uses when no text is selected. -/
def NO_SELECTION : Str := ['N', 'O', '_', 'S', 'E', 'L', 'E', 'C', 'T', 'I', 'O', 'N']

/-- One tick of the selection-polling interval callback
(src/unnamed/part_000 lines 430-444): on a resolved read whose trimmed
data is non-empty, record the trimmed text as the live selection; on a
rejection with code NO_SELECTION record the empty string; otherwise
record nothing (the read is retried at the next tick). -/
def pollTick : PollResult → Option Str
  | .ok data => if jsTrim data = [] then none else some (jsTrim data)
  | .err code => if code = NO_SELECTION then some [] else none

/-- The polling cadence, `setInterval(..., 200)` (src/unnamed/part_000 line 445). -/
def POLLING_MS : Nat := 200

/-! ### Debouncer

The `useDebounce` hook is imported by PDFViewer
(src/unnamed/part_000 line 292) but its source file is not part of the
repository snapshot; the debouncer below is modelled from the spec. -/

/-- Modelled from the spec: the missing `useDebounce` hook's internal
state (spec section 4.2): the last-seen recorded value and the pending
emission deadline, if any. -/
structure DebState where
  recorded : Str
  deadline : Option Nat
deriving DecidableEq

/-- Modelled from the spec: emissions a pending deadline produces if it
elapses strictly before time `t` with no intervening arrival. -/
def debFired (st : DebState) (t : Nat) : List (Nat × Str) :=
  match st.deadline with
  | some d => if d < t then [(d, st.recorded)] else []
  | none => []

/-- Modelled from the spec: the missing `useDebounce` hook, run over a
time-stamped arrival sequence (spec section 4.2).  A non-empty arrival
cancels any still-pending deadline, records the value and schedules
emission at `now + quiet`; an empty arrival cancels the pending
deadline and is emitted immediately; a deadline that elapses with no
intervening arrival emits the recorded value as settled. -/
def debRun (quiet : Nat) : List (Nat × Str) → DebState → List (Nat × Str)
  | [], st =>
      match st.deadline with
      | some d => [(d, st.recorded)]
      | none => []
  | (t, v) :: rest, st =>
      if v = [] then
        debFired st t ++ (t, v) :: debRun quiet rest ⟨[], none⟩
      else
        debFired st t ++ debRun quiet rest ⟨v, some (t + quiet)⟩

/-- The debounce quiet period, `useDebounce(liveSelection, 2000)`
(src/unnamed/part_000 line 322). -/
def DEBOUNCE_MS : Nat := 2000

/-! ### PDFViewer debounce-consumer effect (src/unnamed/part_000 lines 325-331) -/

/-- The argument with which the PDFViewer effect invokes `onTextSelect`
when the debounced selection changes, if it invokes it at all: the
callback fires only when the debounced value is truthy and non-blank
(`if (debouncedSelection && debouncedSelection.trim() !== "")`). -/
def onTextSelectArg (debouncedSelection : Str) : Option Str :=
  if debouncedSelection ≠ [] ∧ jsTrim debouncedSelection ≠ [] then
    some debouncedSelection
  else
    none

/-- Net effect of one run of the PDFViewer debounced-selection effect on
the consumer's `selectedText` state (Index.handleTextSelect stores the
delivered text; when the guard fails `onTextSelect` is not called and
the state keeps its previous value). -/
def debouncedSelectionEffect (debouncedSelection selectedText : Str) : Str :=
  match onTextSelectArg debouncedSelection with
  | some t => t
  | none => selectedText

/-! ### PDFViewer selection-interval resource (src/unnamed/part_000 lines 313-314, 336-362, 422-449)

The component keeps the polling interval id in the `selectionInterval`
state.  The mount effect (dependency array `[]`) returns a cleanup that
clears `selectionInterval`, but that closure captures the value of
`selectionInterval` from the first render, which is `null`.  Each call
of `setupTextSelectionMonitoring` likewise clears the value of
`selectionInterval` captured by the render that created the `loadPDF`
closure it was called from. -/

structure ViewerResource where
  /-- the `selectionInterval` state variable (the most recently stored id) -/
  selectionInterval : Option Nat
  /-- ids of intervals currently running in the host environment -/
  activeIntervals : List Nat
  /-- id the next `setInterval` call returns -/
  nextIntervalId : Nat
  /-- the `selectionInterval` value captured by the mount effect's cleanup
  closure (the value at the first render) -/
  unmountCaptured : Option Nat
deriving DecidableEq

/-- State right after mounting the PDFViewer: no interval exists and the
mount effect's cleanup closure has captured `selectionInterval = null`. -/
def mountPDFViewer : ViewerResource :=
  { selectionInterval := none
    activeIntervals := []
    nextIntervalId := 0
    unmountCaptured := none }

/-- `setupTextSelectionMonitoring` (src/unnamed/part_000 lines 422-449):
clear the interval id captured by the calling closure, if any, then
start a new polling interval and store its id. `captured` is the value
of `selectionInterval` seen by the render that created the calling
`loadPDF` closure. -/
def setupTextSelectionMonitoring (captured : Option Nat) (v : ViewerResource) : ViewerResource :=
  let cleared :=
    match captured with
    | some i => v.activeIntervals.filter (fun j => j ≠ i)
    | none => v.activeIntervals
  { selectionInterval := some v.nextIntervalId
    activeIntervals := cleared ++ [v.nextIntervalId]
    nextIntervalId := v.nextIntervalId + 1
    unmountCaptured := v.unmountCaptured }

/-- The mount effect's cleanup (src/unnamed/part_000 lines 357-361):
`if (selectionInterval) clearInterval(selectionInterval)`, evaluated on
the value the cleanup closure captured at mount time. -/
def unmountPDFViewer (v : ViewerResource) : ViewerResource :=
  match v.unmountCaptured with
  | some i => { v with activeIntervals := v.activeIntervals.filter (fun j => j ≠ i) }
  | none => v

/-! ### RightPanel data model (src/frontend/src/components/RightPanel.tsx) -/

structure BoundingBox where
  x0 : Int
  x1 : Int
  y0 : Int
  y1 : Int
deriving DecidableEq

/-- The `Section` payload element (RightPanel.tsx lines 9-21). -/
structure Section where
  bounding_box : Option BoundingBox
  document_name : Option Str
  full_path : Option Str
  original_content : Option Str
  page_number : Option Int
  section_title : Option Str
deriving DecidableEq

/-- One line of a podcast script, `{ line, speaker }` (RightPanel.tsx line 40). -/
structure ScriptLine where
  line : Str
  speaker : Str
deriving DecidableEq

/-- The `aiInsights` state shape (RightPanel.tsx line 40). -/
structure Insights where
  contradictions : List Section
  enhancements : List Section
  connections : List Section
  podcast_script : List ScriptLine
deriving DecidableEq

/-- The initial / cleared `aiInsights` value. -/
def Insights.empty : Insights := ⟨[], [], [], []⟩

/-- A parsed backend JSON response (`await response.json()`), with every
field the handlers read optional, matching the `data.x || []`
defaulting in the source. The podcast handler stores the whole object. -/
structure ResponseData where
  retrieved_sections : Option (List Section)
  contradictions : Option (List Section)
  enhancements : Option (List Section)
  connections : Option (List Section)
  podcast_script : Option (List ScriptLine)
deriving DecidableEq

/-- The three backend query kinds. -/
inductive Kind
  | related
  | insights
  | podcast
deriving DecidableEq

/-- An issued fetch: its kind, the `selectedText` captured by the fetch
closure at issuance, and an issuance-order id identifying the promise. -/
structure Request where
  kind : Kind
  selection : Str
  id : Nat
deriving DecidableEq

/-- The RightPanel component state relevant to orchestration
(RightPanel.tsx lines 39-46). -/
structure PanelState where
  relatedSections : List Section
  aiInsights : Insights
  isLoadingRelated : Bool
  isLoadingInsights : Bool
  podcastData : Option ResponseData
  isPodcastLoading : Bool
deriving DecidableEq

/-- The dependency values of the podcast effect (RightPanel.tsx line
148), which include all dependencies of the related/insights effect
(line 120, `[selectedText]`). A render's snapshot of these values is
what its effects read. -/
structure Snapshot where
  selectedText : Str
  isLoadingRelated : Bool
  isLoadingInsights : Bool
  podcastData : Option ResponseData
  isPodcastLoading : Bool
deriving DecidableEq

/-- The whole modelled world: the consumer's `selectedText` state
(Index.tsx, passed to RightPanel as a prop), the RightPanel state, the
in-flight and all-time-issued requests, and the dependency snapshot of
the previous committed render. -/
structure World where
  selectedText : Str
  panel : PanelState
  pending : List Request
  issued : List Request
  nextId : Nat
  prevSnap : Option Snapshot
deriving DecidableEq

/-- The current dependency snapshot of a world. -/
def snap (w : World) : Snapshot :=
  { selectedText := w.selectedText
    isLoadingRelated := w.panel.isLoadingRelated
    isLoadingInsights := w.panel.isLoadingInsights
    podcastData := w.panel.podcastData
    isPodcastLoading := w.panel.isPodcastLoading }

/-- Issue a fetch: the request becomes pending and is appended to the
issuance log. -/
def issue (k : Kind) (sel : Str) (w : World) : World :=
  { w with
    pending := w.pending ++ [⟨k, sel, w.nextId⟩]
    issued := w.issued ++ [⟨k, sel, w.nextId⟩]
    nextId := w.nextId + 1 }

/-- The first data effect of RightPanel (lines 65-120, deps
`[selectedText]`), reading the snapshot `s` of the render it runs in:
on empty selection clear the stored results and podcast data; otherwise
set both loading flags, clear previous podcast data, and issue the
Related and Insights fetches with the captured selection. -/
def fetchRelatedInsightsEffect (s : Snapshot) (w : World) : World :=
  if s.selectedText = [] then
    { w with panel :=
      { w.panel with
        relatedSections := []
        aiInsights := Insights.empty
        podcastData := none } }
  else
    issue .insights s.selectedText (issue .related s.selectedText
      { w with panel :=
        { w.panel with
          isLoadingRelated := true
          isLoadingInsights := true
          podcastData := none } })

/-- The guard of the podcast effect (RightPanel.tsx lines 124-126):
`selectedText && !isLoadingRelated && !isLoadingInsights` and
`!podcastData && !isPodcastLoading`, evaluated on the render snapshot. -/
def shouldFetchPodcast (s : Snapshot) : Bool :=
  !s.selectedText.isEmpty && !s.isLoadingRelated && !s.isLoadingInsights
    && s.podcastData.isNone && !s.isPodcastLoading

/-- The second data effect of RightPanel (lines 123-148, deps
`[selectedText, isLoadingRelated, isLoadingInsights, podcastData,
isPodcastLoading]`): when the guard holds on the render snapshot, set
`isPodcastLoading` and issue the Podcast fetch with the captured
selection. -/
def fetchPodcastEffect (s : Snapshot) (w : World) : World :=
  if shouldFetchPodcast s then
    issue .podcast s.selectedText
      { w with panel := { w.panel with isPodcastLoading := true } }
  else
    w

/-- Whether the dependency array `[selectedText]` of the first effect
differs from the previous committed render (it always runs on the first
commit). -/
def depsChanged1 (w : World) : Bool :=
  match w.prevSnap with
  | none => true
  | some p => decide ((snap w).selectedText ≠ p.selectedText)

/-- Whether the dependency array of the podcast effect (all five
snapshot values) differs from the previous committed render. -/
def depsChanged2 (w : World) : Bool :=
  match w.prevSnap with
  | none => true
  | some p => decide (snap w ≠ p)

/-- One React commit: take the dependency snapshot of the current
values, run the first effect if its dependency (`selectedText`) changed
since the previous committed render, then the second effect if any of
its five dependencies changed; both read the same pre-effect snapshot
(state setters only take effect at the next render).  On the very first
commit (`prevSnap = none`) both effects run. -/
def flushStep (w : World) : World :=
  let s := snap w
  let w1 := if depsChanged1 w then fetchRelatedInsightsEffect s w else w
  let w2 := if depsChanged2 w then fetchPodcastEffect s w1 else w1
  { w2 with prevSnap := some s }

/-- Whether processing a commit from world `w` issues a Podcast
request: the podcast effect must run (its dependencies changed) and its
guard must hold on the pre-effect snapshot. -/
def podcastFires (w : World) : Bool :=
  depsChanged2 w && shouldFetchPodcast (snap w)

/-- Re-render until the component stabilises.  Two commits always
suffice: effects never change `selectedText`, so the first effect can
only run in the first commit, and whenever the first commit changed a
snapshot value the podcast guard is false afterwards (shown by
`flushStep_flushStep` below). -/
def flush (w : World) : World := flushStep (flushStep w)

/-- External events driving the component: the consumer stores a newly
settled selection (Index.handleTextSelect), or one of the in-flight
fetch promises settles. -/
inductive Event
  | setSelected (v : Str)
  | resolve (id : Nat) (data : ResponseData)
  | reject (id : Nat)

/-- The synchronous continuation each event runs before the next
re-render: `setSelected` writes the prop; a promise settlement removes
the request from the in-flight set and runs the corresponding `.then`
/ `.catch` / `finally` handlers of RightPanel.tsx (lines 79-92, 97-115,
129-143).  No handler compares the request's captured selection with
the current one. -/
def applyEvent : Event → World → World
  | .setSelected v, w => { w with selectedText := v }
  | .resolve id data, w =>
    match w.pending.find? (fun r => r.id = id) with
    | none => w
    | some r =>
      let w' := { w with pending := w.pending.filter (fun q => q.id ≠ id) }
      match r.kind with
      | .related =>
        { w' with panel :=
          { w'.panel with
            relatedSections := data.retrieved_sections.getD []
            isLoadingRelated := false } }
      | .insights =>
        { w' with panel :=
          { w'.panel with
            aiInsights :=
              ⟨data.contradictions.getD [], data.enhancements.getD [],
               data.connections.getD [], data.podcast_script.getD []⟩
            isLoadingInsights := false } }
      | .podcast =>
        { w' with panel :=
          { w'.panel with
            podcastData := some data
            isPodcastLoading := false } }
  | .reject id, w =>
    match w.pending.find? (fun r => r.id = id) with
    | none => w
    | some r =>
      let w' := { w with pending := w.pending.filter (fun q => q.id ≠ id) }
      match r.kind with
      | .related =>
        { w' with panel :=
          { w'.panel with relatedSections := [], isLoadingRelated := false } }
      | .insights =>
        { w' with panel :=
          { w'.panel with aiInsights := Insights.empty, isLoadingInsights := false } }
      | .podcast =>
        { w' with panel :=
          { w'.panel with podcastData := none, isPodcastLoading := false } }

/-- Process one event: run its synchronous continuation, then re-render. -/
def stepEvent (e : Event) (w : World) : World := flush (applyEvent e w)

/-- Run a sequence of events. -/
def runEvents (w : World) (es : List Event) : World :=
  es.foldl (fun a e => stepEvent e a) w

/-- The component state as first rendered: empty selection, empty
results, nothing loading, nothing pending. -/
def rawInit : World :=
  { selectedText := []
    panel :=
      { relatedSections := []
        aiInsights := Insights.empty
        isLoadingRelated := false
        isLoadingInsights := false
        podcastData := none
        isPodcastLoading := false }
    pending := []
    issued := []
    nextId := 0
    prevSnap := none }

/-- The world right after mounting (initial commit of both effects). -/
def initWorld : World := flush rawInit

/-- `arePodcastButtonsDisabled` (RightPanel.tsx line 187):
`isLoadingRelated || isLoadingInsights || isPodcastLoading || !podcastData`. -/
def arePodcastButtonsDisabled (p : PanelState) : Bool :=
  p.isLoadingRelated || p.isLoadingInsights || p.isPodcastLoading || p.podcastData.isNone

/-- Whether a request is a Podcast request. -/
def isPodcastReq (r : Request) : Bool :=
  match r.kind with
  | .podcast => true
  | _ => false

/-- Number of Podcast requests in a request log. -/
def podcastCount (l : List Request) : Nat := (l.filter isPodcastReq).length

/-- A sample non-trivial section payload, used in concrete traces. -/
def sampleSection : Section :=
  { bounding_box := none
    document_name := some ['d']
    full_path := none
    original_content := some ['c']
    page_number := some 1
    section_title := some ['t'] }

/-- A sample backend response carrying one retrieved section. -/
def sampleRelatedData : ResponseData :=
  { retrieved_sections := some [sampleSection]
    contradictions := none
    enhancements := none
    connections := none
    podcast_script := none }

/-- A sample backend response with no usable fields. -/
def emptyData : ResponseData :=
  { retrieved_sections := none
    contradictions := none
    enhancements := none
    connections := none
    podcast_script := none }

/-! ## Supporting lemmas -/

/-- The head of `l.dropWhile p` never satisfies `p`. -/
theorem head?_dropWhile_not (p : Char → Bool) :
    ∀ (l : List Char) (x : Char), (l.dropWhile p).head? = some x → p x = false := by
  intro l
  induction l with
  | nil => intro x h; simp [List.dropWhile] at h
  | cons a t ih =>
    intro x h
    rw [List.dropWhile_cons] at h
    by_cases hp : p a
    · rw [if_pos hp] at h
      exact ih x h
    · rw [if_neg hp] at h
      simp only [List.head?_cons, Option.some.injEq] at h
      subst h
      simpa using hp

/-- `dropWhile` is idempotent. -/
theorem dropWhile_self (p : Char → Bool) (l : List Char) :
    (l.dropWhile p).dropWhile p = l.dropWhile p := by
  cases h : l.dropWhile p with
  | nil => simp
  | cons a t =>
    have ha : p a = false := head?_dropWhile_not p l a (by rw [h]; rfl)
    rw [List.dropWhile_cons, if_neg (by simp [ha])]

/-- The first character of a trimmed string never satisfies the
trimming predicate. -/
theorem trimBy_head_false (p : Char → Bool) (l : List Char) (c : Char)
    (h : (trimBy p l).head? = some c) : p c = false := by
  unfold trimBy at h
  rw [List.head?_reverse] at h
  have hd : (l.dropWhile p).reverse.dropWhile p ≠ [] := by
    intro h0
    rw [h0] at h
    cases h
  have h1 : ((l.dropWhile p).reverse.takeWhile p ++ (l.dropWhile p).reverse.dropWhile p).getLast?
      = ((l.dropWhile p).reverse.dropWhile p).getLast? :=
    List.getLast?_append_of_ne_nil _ hd
  rw [List.takeWhile_append_dropWhile] at h1
  rw [← h1, List.getLast?_reverse] at h
  exact head?_dropWhile_not p l c h

/-- Trimmed strings are untouched by a further `dropWhile`. -/
theorem dropWhile_trimBy (p : Char → Bool) (l : List Char) :
    (trimBy p l).dropWhile p = trimBy p l := by
  cases h : trimBy p l with
  | nil => simp
  | cons c t =>
    have hc : p c = false := trimBy_head_false p l c (by rw [h]; rfl)
    rw [List.dropWhile_cons, if_neg (by simp [hc])]

/-- Trimming is idempotent. -/
theorem trimBy_idem (p : Char → Bool) (l : List Char) :
    trimBy p (trimBy p l) = trimBy p l := by
  have h1 : trimBy p (trimBy p l)
      = (((trimBy p l).dropWhile p).reverse.dropWhile p).reverse := rfl
  rw [h1, dropWhile_trimBy]
  have h2 : (trimBy p l).reverse = (l.dropWhile p).reverse.dropWhile p := by
    unfold trimBy
    rw [List.reverse_reverse]
  rw [h2, dropWhile_self]
  unfold trimBy
  rfl

/-- `jsTrim` is idempotent. -/
theorem jsTrim_idem (l : Str) : jsTrim (jsTrim l) = jsTrim l :=
  trimBy_idem Char.isWhitespace l

/-- Every value the poll callback records is already trimmed. -/
theorem pollTick_trimmed (r : PollResult) (v : Str) (h : pollTick r = some v) :
    jsTrim v = v := by
  cases r with
  | ok data =>
    simp only [pollTick] at h
    by_cases hh : jsTrim data = []
    · rw [if_pos hh] at h
      cases h
    · rw [if_neg hh] at h
      obtain rfl : jsTrim data = v := by injection h
      exact jsTrim_idem data
  | err code =>
    simp only [pollTick] at h
    by_cases hh : code = NO_SELECTION
    · rw [if_pos hh] at h
      obtain rfl : ([] : Str) = v := by injection h
      rfl
    · rw [if_neg hh] at h
      cases h

/-- Unfolding: an empty arrival fires any already-elapsed deadline,
cancels a still-pending one, and is itself emitted immediately. -/
theorem debRun_cons_empty (quiet t : Nat) (rest : List (Nat × Str)) (st : DebState) :
    debRun quiet ((t, ([] : Str)) :: rest) st
      = debFired st t ++ (t, ([] : Str)) :: debRun quiet rest ⟨[], none⟩ := by
  simp [debRun]

/-- Unfolding: a non-empty arrival fires any already-elapsed deadline,
cancels a still-pending one, records the value and schedules emission
one quiet period later. -/
theorem debRun_cons_ne (quiet t : Nat) (v : Str) (rest : List (Nat × Str)) (st : DebState)
    (hv : v ≠ ([] : Str)) :
    debRun quiet ((t, v) :: rest) st
      = debFired st t ++ debRun quiet rest ⟨v, some (t + quiet)⟩ := by
  simp [debRun, hv]

/-- What membership in `debFired` means. -/
theorem debFired_mem (st : DebState) (t T : Nat) (v : Str)
    (h : (T, v) ∈ debFired st t) :
    st.deadline = some T ∧ st.recorded = v ∧ T < t := by
  obtain ⟨rec, dl⟩ := st
  cases dl with
  | none => simp [debFired] at h
  | some d =>
    by_cases hdt : d < t
    · simp only [debFired, if_pos hdt, List.mem_singleton, Prod.mk.injEq] at h
      obtain ⟨rfl, rfl⟩ := h
      exact ⟨rfl, rfl, hdt⟩
    · simp [debFired, hdt] at h

/-- What the terminal emission of a run with no arrivals means. -/
theorem debRun_nil_mem (quiet T : Nat) (v : Str) (st : DebState)
    (h : (T, v) ∈ debRun quiet [] st) :
    st.deadline = some T ∧ st.recorded = v := by
  obtain ⟨rec, dl⟩ := st
  cases dl with
  | none => simp [debRun] at h
  | some d =>
    simp only [debRun, List.mem_singleton, Prod.mk.injEq] at h
    obtain ⟨rfl, rfl⟩ := h
    exact ⟨rfl, rfl⟩

/-- Every emission of a debouncer run over strictly time-ordered
non-empty arrivals either comes from the initial pending deadline (and
precedes every arrival) or settles some arrival exactly `quiet` after
it, with no arrival inside the waiting window. -/
theorem debRun_attrib (quiet : Nat) :
    ∀ (evs : List (Nat × Str)) (st : DebState) (T : Nat) (v : Str),
      evs.Pairwise (fun a b => a.1 < b.1) →
      (∀ e ∈ evs, e.2 ≠ ([] : Str)) →
      (T, v) ∈ debRun quiet evs st →
      (st.deadline = some T ∧ st.recorded = v ∧ ∀ e ∈ evs, T < e.1) ∨
      (∃ t, (t, v) ∈ evs ∧ T = t + quiet ∧ ∀ e ∈ evs, e.1 ≤ t ∨ T < e.1) := by
  intro evs
  induction evs with
  | nil =>
    intro st T v _ _ hmem
    obtain ⟨hdl, hrec⟩ := debRun_nil_mem quiet T v st hmem
    exact Or.inl ⟨hdl, hrec, by intro e he; cases he⟩
  | cons hd tl ih =>
    intro st T v hpw hne hmem
    obtain ⟨t₁, v₁⟩ := hd
    have hv₁ : v₁ ≠ ([] : Str) := hne (t₁, v₁) (List.mem_cons_self _ _)
    have hpw' : tl.Pairwise (fun a b => a.1 < b.1) := (List.pairwise_cons.mp hpw).2
    have hlt : ∀ e ∈ tl, t₁ < e.1 := (List.pairwise_cons.mp hpw).1
    rw [debRun_cons_ne quiet t₁ v₁ tl st hv₁, List.mem_append] at hmem
    cases hmem with
    | inl hfire =>
      obtain ⟨hdl, hrec, hTt⟩ := debFired_mem st t₁ T v hfire
      left
      refine ⟨hdl, hrec, ?_⟩
      intro e he
      rcases List.mem_cons.mp he with rfl | he'
      · exact hTt
      · exact lt_trans hTt (hlt e he')
    | inr hrec =>
      have := ih ⟨v₁, some (t₁ + quiet)⟩ T v hpw'
        (fun e he => hne e (List.mem_cons_of_mem _ he)) hrec
      cases this with
      | inl hl =>
        obtain ⟨hdl, hrecd, hall⟩ := hl
        simp only [Option.some.injEq] at hdl
        right
        refine ⟨t₁, ?_, hdl.symm, ?_⟩
        · rw [← hrecd]
          exact List.mem_cons_self _ _
        · intro e he
          rcases List.mem_cons.mp he with rfl | he'
          · exact Or.inl le_rfl
          · exact Or.inr (hall e he')
      | inr hr =>
        obtain ⟨t, htm, hT, hall⟩ := hr
        right
        refine ⟨t, List.mem_cons_of_mem _ htm, hT, ?_⟩
        intro e he
        rcases List.mem_cons.mp he with rfl | he'
        · exact Or.inl (le_of_lt (hlt (t, v) htm))
        · exact hall e he'

/-- Every value a debouncer run emits is either the value of some
arrival or the initially recorded value. -/
theorem debRun_values (quiet : Nat) :
    ∀ (evs : List (Nat × Str)) (st : DebState) (T : Nat) (v : Str),
      (T, v) ∈ debRun quiet evs st →
      (∃ t, (t, v) ∈ evs) ∨ v = st.recorded := by
  intro evs
  induction evs with
  | nil =>
    intro st T v hmem
    exact Or.inr (debRun_nil_mem quiet T v st hmem).2.symm
  | cons hd tl ih =>
    intro st T v hmem
    obtain ⟨t₁, v₁⟩ := hd
    by_cases hv₁ : v₁ = ([] : Str)
    · subst hv₁
      rw [debRun_cons_empty quiet t₁ tl st, List.mem_append] at hmem
      cases hmem with
      | inl hfire => exact Or.inr (debFired_mem st t₁ T v hfire).2.1.symm
      | inr hrest =>
        rcases List.mem_cons.mp hrest with heq | hrec
        · have hv : v = ([] : Str) := congrArg Prod.snd heq
          subst hv
          exact Or.inl ⟨t₁, List.mem_cons_self _ _⟩
        · cases ih ⟨[], none⟩ T v hrec with
          | inl h => exact Or.inl ⟨h.choose, List.mem_cons_of_mem _ h.choose_spec⟩
          | inr h =>
            subst h
            exact Or.inl ⟨t₁, List.mem_cons_self _ _⟩
    · rw [debRun_cons_ne quiet t₁ v₁ tl st hv₁, List.mem_append] at hmem
      cases hmem with
      | inl hfire => exact Or.inr (debFired_mem st t₁ T v hfire).2.1.symm
      | inr hrec =>
        cases ih ⟨v₁, some (t₁ + quiet)⟩ T v hrec with
        | inl h => exact Or.inl ⟨h.choose, List.mem_cons_of_mem _ h.choose_spec⟩
        | inr h =>
          subst h
          exact Or.inl ⟨t₁, List.mem_cons_self _ _⟩

theorem issue_selectedText (k : Kind) (sel : Str) (w : World) :
    (issue k sel w).selectedText = w.selectedText := rfl

theorem issue_panel (k : Kind) (sel : Str) (w : World) :
    (issue k sel w).panel = w.panel := rfl

theorem fetchRelatedInsightsEffect_selectedText (s : Snapshot) (w : World) :
    (fetchRelatedInsightsEffect s w).selectedText = w.selectedText := by
  unfold fetchRelatedInsightsEffect
  split <;> rfl

theorem fetchPodcastEffect_selectedText (s : Snapshot) (w : World) :
    (fetchPodcastEffect s w).selectedText = w.selectedText := by
  unfold fetchPodcastEffect
  split <;> rfl

theorem fetchPodcastEffect_isLoadingRelated (s : Snapshot) (w : World) :
    (fetchPodcastEffect s w).panel.isLoadingRelated = w.panel.isLoadingRelated := by
  unfold fetchPodcastEffect
  split <;> rfl

theorem fetchPodcastEffect_loading_of_guard (s : Snapshot) (w : World)
    (h : shouldFetchPodcast s = true) :
    (fetchPodcastEffect s w).panel.isPodcastLoading = true := by
  unfold fetchPodcastEffect
  rw [if_pos h]
  rfl

theorem fetchRelatedInsightsEffect_loading_of_ne (s : Snapshot) (w : World)
    (h : s.selectedText ≠ []) :
    (fetchRelatedInsightsEffect s w).panel.isLoadingRelated = true := by
  unfold fetchRelatedInsightsEffect
  rw [if_neg h]
  rfl

theorem prevSnap_flushStep (w : World) : (flushStep w).prevSnap = some (snap w) := rfl

theorem snap_set_prevSnap (w : World) (x : Option Snapshot) :
    snap { w with prevSnap := x } = snap w := rfl

theorem flushStep_selectedText (w : World) : (flushStep w).selectedText = w.selectedText := by
  unfold flushStep
  by_cases h1 : depsChanged1 w <;> by_cases h2 : depsChanged2 w <;>
    simp [h1, h2, fetchPodcastEffect_selectedText, fetchRelatedInsightsEffect_selectedText]

theorem shouldFetchPodcast_false_of_loading (s : Snapshot)
    (h : s.isLoadingRelated = true) : shouldFetchPodcast s = false := by
  simp [shouldFetchPodcast, h]

theorem shouldFetchPodcast_false_of_podcastLoading (s : Snapshot)
    (h : s.isPodcastLoading = true) : shouldFetchPodcast s = false := by
  simp [shouldFetchPodcast, h]

theorem shouldFetchPodcast_false_of_empty (s : Snapshot)
    (h : s.selectedText = []) : shouldFetchPodcast s = false := by
  simp [shouldFetchPodcast, h]

/-- If a commit changed any dependency value, the podcast guard is
false on the post-commit snapshot: whichever effect wrote either set a
loading flag the guard excludes or cleared the selection. -/
theorem shouldFetchPodcast_after (w : World) (h : snap (flushStep w) ≠ snap w) :
    shouldFetchPodcast (snap (flushStep w)) = false := by
  unfold flushStep at *
  by_cases h1 : depsChanged1 w
  · by_cases hsel : (snap w).selectedText = []
    · apply shouldFetchPodcast_false_of_empty
      show (snap _).selectedText = []
      rw [show ∀ x : World, (snap x).selectedText = x.selectedText from fun _ => rfl]
      simp only [h1, if_pos]
      by_cases h2 : depsChanged2 w <;>
        (simp [h2, fetchPodcastEffect_selectedText, fetchRelatedInsightsEffect_selectedText];
          exact hsel)
    · apply shouldFetchPodcast_false_of_loading
      show (snap _).isLoadingRelated = true
      rw [show ∀ x : World, (snap x).isLoadingRelated = x.panel.isLoadingRelated from fun _ => rfl]
      simp only [h1, if_pos]
      by_cases h2 : depsChanged2 w <;>
        simp [h2, fetchPodcastEffect_isLoadingRelated,
          fetchRelatedInsightsEffect_loading_of_ne _ _ hsel]
  · by_cases h2 : depsChanged2 w
    · by_cases hg : shouldFetchPodcast (snap w)
      · apply shouldFetchPodcast_false_of_podcastLoading
        show (snap _).isPodcastLoading = true
        rw [show ∀ x : World, (snap x).isPodcastLoading = x.panel.isPodcastLoading from fun _ => rfl]
        simp only [h1, h2, if_pos, if_neg]
        simp [fetchPodcastEffect_loading_of_guard _ _ hg]
      · exfalso
        apply h
        simp only [h1, h2, if_pos, if_neg]
        simp [fetchPodcastEffect, hg, snap_set_prevSnap]
    · exfalso
      apply h
      simp [h1, h2, snap_set_prevSnap]

/-- The second commit of a flush never runs an effect body: it only
records the new dependency snapshot.  (The first effect cannot run
because effects never change `selectedText`; the podcast effect's guard
is false whenever the first commit changed anything.) -/
theorem flushStep_flushStep (w : World) :
    flushStep (flushStep w) = { flushStep w with prevSnap := some (snap (flushStep w)) } := by
  have hd1 : depsChanged1 (flushStep w) = false := by
    unfold depsChanged1
    rw [prevSnap_flushStep]
    have : (snap (flushStep w)).selectedText = (snap w).selectedText := by
      rw [show ∀ x : World, (snap x).selectedText = x.selectedText from fun _ => rfl,
        show ∀ x : World, (snap x).selectedText = x.selectedText from fun _ => rfl,
        flushStep_selectedText]
    simp [this]
  by_cases hs : snap (flushStep w) = snap w
  · have hd2 : depsChanged2 (flushStep w) = false := by
      unfold depsChanged2
      rw [prevSnap_flushStep]
      simp [hs]
    show (let s := snap (flushStep w);
      let w1 := if depsChanged1 (flushStep w) then fetchRelatedInsightsEffect s (flushStep w)
        else flushStep w;
      let w2 := if depsChanged2 (flushStep w) then fetchPodcastEffect s w1 else w1;
      { w2 with prevSnap := some s }) = _
    rw [hd1, hd2]
    simp
  · have hguard : shouldFetchPodcast (snap (flushStep w)) = false :=
      shouldFetchPodcast_after w hs
    show (let s := snap (flushStep w);
      let w1 := if depsChanged1 (flushStep w) then fetchRelatedInsightsEffect s (flushStep w)
        else flushStep w;
      let w2 := if depsChanged2 (flushStep w) then fetchPodcastEffect s w1 else w1;
      { w2 with prevSnap := some s }) = _
    rw [hd1]
    simp only [Bool.false_eq_true, if_false]
    by_cases hd2 : depsChanged2 (flushStep w)
    · rw [if_pos hd2]
      unfold fetchPodcastEffect
      rw [if_neg (by simp [hguard])]
    · rw [if_neg (by simp [hd2])]

theorem podcastCount_append (a b : List Request) :
    podcastCount (a ++ b) = podcastCount a + podcastCount b := by
  unfold podcastCount
  rw [List.filter_append, List.length_append]

theorem podcastCount_issue (k : Kind) (sel : Str) (w : World) :
    podcastCount (issue k sel w).issued
      = podcastCount w.issued + podcastCount [⟨k, sel, w.nextId⟩] := by
  unfold issue
  exact podcastCount_append _ _

theorem podcastCount_fetchRelatedInsightsEffect (s : Snapshot) (w : World) :
    podcastCount (fetchRelatedInsightsEffect s w).issued = podcastCount w.issued := by
  unfold fetchRelatedInsightsEffect
  split
  · rfl
  · rw [podcastCount_issue, podcastCount_issue]
    simp [podcastCount, List.filter, isPodcastReq]

theorem podcastCount_fetchPodcastEffect (s : Snapshot) (w : World) :
    podcastCount (fetchPodcastEffect s w).issued
      = podcastCount w.issued + (if shouldFetchPodcast s then 1 else 0) := by
  unfold fetchPodcastEffect
  split
  · rw [podcastCount_issue]
    simp [podcastCount, List.filter, isPodcastReq]
  · simp

/-- Podcast-request accounting for one commit: a Podcast request is
issued exactly when the podcast effect runs with a true guard. -/
theorem podcastCount_flushStep (w : World) :
    podcastCount (flushStep w).issued
      = podcastCount w.issued + (if podcastFires w then 1 else 0) := by
  unfold flushStep podcastFires
  by_cases h1 : depsChanged1 w <;> by_cases h2 : depsChanged2 w <;>
    simp [h1, h2, podcastCount_fetchPodcastEffect, podcastCount_fetchRelatedInsightsEffect]

/-- Podcast-request accounting for a whole flush: the second commit
issues nothing. -/
theorem podcastCount_flush (w : World) :
    podcastCount (flush w).issued
      = podcastCount w.issued + (if podcastFires w then 1 else 0) := by
  unfold flush
  rw [flushStep_flushStep]
  show podcastCount (flushStep w).issued = _
  exact podcastCount_flushStep w

theorem issued_applyEvent (e : Event) (w : World) :
    (applyEvent e w).issued = w.issued := by
  cases e with
  | setSelected v => rfl
  | resolve id data =>
    simp only [applyEvent]
    cases h : w.pending.find? (fun r => r.id = id) with
    | none => rfl
    | some r =>
      obtain ⟨k, sel, i⟩ := r
      cases k <;> rfl
  | reject id =>
    simp only [applyEvent]
    cases h : w.pending.find? (fun r => r.id = id) with
    | none => rfl
    | some r =>
      obtain ⟨k, sel, i⟩ := r
      cases k <;> rfl

theorem prevSnap_applyEvent (e : Event) (w : World) :
    (applyEvent e w).prevSnap = w.prevSnap := by
  cases e with
  | setSelected v => rfl
  | resolve id data =>
    simp only [applyEvent]
    cases h : w.pending.find? (fun r => r.id = id) with
    | none => rfl
    | some r =>
      obtain ⟨k, sel, i⟩ := r
      cases k <;> rfl
  | reject id =>
    simp only [applyEvent]
    cases h : w.pending.find? (fun r => r.id = id) with
    | none => rfl
    | some r =>
      obtain ⟨k, sel, i⟩ := r
      cases k <;> rfl

/-- `podcastFires` only looks at the dependency snapshot and the
previous committed snapshot. -/
theorem podcastFires_congr (x y : World)
    (hp : x.prevSnap = y.prevSnap) (hs : snap x = snap y) :
    podcastFires x = podcastFires y := by
  unfold podcastFires depsChanged2
  rw [hp, hs]

/-- Podcast-request accounting for a full event step. -/
theorem podcastCount_stepEvent (e : Event) (w : World) :
    podcastCount (stepEvent e w).issued
      = podcastCount w.issued + (if podcastFires (applyEvent e w) then 1 else 0) := by
  unfold stepEvent
  rw [podcastCount_flush, issued_applyEvent]

/-- A stabilised world (the committed snapshot equals the current one)
is a fixed point of the commit loop. -/
theorem flushStep_of_stable (w : World) (h : w.prevSnap = some (snap w)) :
    flushStep w = w := by
  have h1 : depsChanged1 w = false := by
    unfold depsChanged1
    rw [h]
    simp
  have h2 : depsChanged2 w = false := by
    unfold depsChanged2
    rw [h]
    simp
  show (let s := snap w;
    let w1 := if depsChanged1 w then fetchRelatedInsightsEffect s w else w;
    let w2 := if depsChanged2 w then fetchPodcastEffect s w1 else w1;
    { w2 with prevSnap := some s }) = w
  rw [h1, h2]
  simp only [Bool.false_eq_true, if_false]
  rw [← h]

/-- Every flush ends stabilised. -/
theorem flush_stable (w : World) : (flush w).prevSnap = some (snap (flush w)) := by
  unfold flush
  rw [flushStep_flushStep]
  rfl

/-- Every event step ends stabilised. -/
theorem stepEvent_stable (e : Event) (w : World) :
    (stepEvent e w).prevSnap = some (snap (stepEvent e w)) :=
  flush_stable (applyEvent e w)

/-! ## Claim theorems -/

/-- C1 counterexample: the claim that a Podcast request is issued only
after both the Related and the Insights requests of the same epoch have
settled is false.  One settled selection from the initial state issues
the Podcast request in the very same commit as the Related and Insights
requests, while both are still loading: the podcast effect reads the
render snapshot, in which both loading flags are still false. -/
theorem c1_counterexample :
    podcastCount (stepEvent (Event.setSelected ['a']) initWorld).issued = 1
    ∧ (stepEvent (Event.setSelected ['a']) initWorld).panel.isLoadingRelated = true
    ∧ (stepEvent (Event.setSelected ['a']) initWorld).panel.isLoadingInsights = true
    ∧ (stepEvent (Event.setSelected ['a']) initWorld).pending
        = [⟨Kind.related, ['a'], 0⟩, ⟨Kind.insights, ['a'], 1⟩, ⟨Kind.podcast, ['a'], 2⟩] := by
  decide

/-- C1, amended: each processed event issues at most one Podcast
request, and it is issued exactly when the podcast effect runs (its
dependencies changed) and its guard — selection non-empty, both loading
flags clear, no stored podcast data, no podcast in flight — holds on
the pre-effect committed snapshot.  Nothing orders this issuance after
the same selection's Related/Insights settlement. -/
theorem c1_amended_issuance :
    (∀ (e : Event) (w : World),
      podcastCount (stepEvent e w).issued
        = podcastCount w.issued + (if podcastFires (applyEvent e w) then 1 else 0))
    ∧ (∀ (e : Event) (w : World),
      podcastCount (stepEvent e w).issued ≤ podcastCount w.issued + 1) := by
  constructor
  · exact podcastCount_stepEvent
  · intro e w
    rw [podcastCount_stepEvent]
    split <;> omega

/-- C2 counterexample: the claim that a response for a superseded epoch
is discarded without mutating state is false.  Selection `a` issues
Related request 0, selection `b` supersedes it; when request 0 then
resolves, its payload overwrites `relatedSections` and clears
`isLoadingRelated` even though the Related request for the current
selection `b` (request 3) is still in flight. -/
theorem c2_counterexample :
    ((runEvents initWorld [Event.setSelected ['a'], Event.setSelected ['b']]).pending.find?
        (fun r => r.id = 0) = some ⟨Kind.related, ['a'], 0⟩)
    ∧ (runEvents initWorld [Event.setSelected ['a'], Event.setSelected ['b']]).selectedText = ['b']
    ∧ (runEvents initWorld [Event.setSelected ['a'], Event.setSelected ['b']]).panel.relatedSections = []
    ∧ (runEvents initWorld [Event.setSelected ['a'], Event.setSelected ['b']]).panel.isLoadingRelated = true
    ∧ (stepEvent (Event.resolve 0 sampleRelatedData) (runEvents initWorld
        [Event.setSelected ['a'], Event.setSelected ['b']])).panel.relatedSections = [sampleSection]
    ∧ (stepEvent (Event.resolve 0 sampleRelatedData) (runEvents initWorld
        [Event.setSelected ['a'], Event.setSelected ['b']])).panel.isLoadingRelated = false
    ∧ ((stepEvent (Event.resolve 0 sampleRelatedData) (runEvents initWorld
        [Event.setSelected ['a'], Event.setSelected ['b']])).pending.find?
        (fun r => r.id = 3) = some ⟨Kind.related, ['b'], 3⟩) := by
  decide

/-- C2, amended: no staleness check exists — the response handlers
never consult the current selection, so a response for a superseded
selection is applied to the store exactly as a current one would be.
Formally, the handlers commute with any change of `selectedText`. -/
theorem c2_amended_no_staleness_check :
    ∀ (id : Nat) (data : ResponseData) (v : Str) (w : World),
      applyEvent (Event.resolve id data) { w with selectedText := v }
        = { applyEvent (Event.resolve id data) w with selectedText := v }
      ∧ applyEvent (Event.reject id) { w with selectedText := v }
        = { applyEvent (Event.reject id) w with selectedText := v } := by
  intro id data v w
  constructor
  · simp only [applyEvent]
    cases h : w.pending.find? (fun r => r.id = id) with
    | none => rfl
    | some r =>
      obtain ⟨k, sel, i⟩ := r
      cases k <;> rfl
  · simp only [applyEvent]
    cases h : w.pending.find? (fun r => r.id = id) with
    | none => rfl
    | some r =>
      obtain ⟨k, sel, i⟩ := r
      cases k <;> rfl

/-- C3 counterexample: the claim that the empty (cleared) value reaches
the consumer and blanks the display is false.  The PDFViewer effect
guard drops empty debounced values: `onTextSelect` is not invoked and
the consumer's `selectedText` keeps its previous non-empty value, so
the RightPanel clear branch never runs. -/
theorem c3_counterexample :
    onTextSelectArg [] = none
    ∧ debouncedSelectionEffect [] ['a'] = ['a']
    ∧ (['a'] : Str) ≠ [] := by
  decide

/-- C3, amended: the debouncer itself does emit an empty arrival
immediately (bypassing the quiet period and cancelling any still
pending deadline), but the PDFViewer consumer effect drops it: for an
empty debounced value `onTextSelect` is not called and the stored
selection is left unchanged, so the displayed results are not blanked. -/
theorem c3_amended_empty_dropped :
    (∀ (quiet t : Nat) (rest : List (Nat × Str)) (st : DebState),
      debRun quiet ((t, ([] : Str)) :: rest) st
        = debFired st t ++ (t, ([] : Str)) :: debRun quiet rest ⟨[], none⟩)
    ∧ (∀ prev : Str, debouncedSelectionEffect [] prev = prev) :=
  ⟨debRun_cons_empty, fun _ => rfl⟩

/-- C4 counterexample: the claim that a failed Podcast request is not
retried is false.  After the Related and Insights requests of selection
`a` settle, rejecting the in-flight Podcast request (id 2) immediately
re-arms the trigger guard and a second Podcast request is issued. -/
theorem c4_counterexample :
    podcastCount (runEvents initWorld [Event.setSelected ['a'],
      Event.resolve 0 emptyData, Event.resolve 1 emptyData]).issued = 1
    ∧ podcastCount (runEvents initWorld [Event.setSelected ['a'],
      Event.resolve 0 emptyData, Event.resolve 1 emptyData, Event.reject 2]).issued = 2 := by
  decide

/-- C4, amended: a Podcast failure does surface as no audio content —
the handler stores `null`, which keeps the audio-format buttons
disabled — but the request IS retried automatically: rejecting a
pending Podcast request in a stabilised world whose Related/Insights
are settled makes the trigger guard true again, so the next commit
issues a fresh Podcast request. -/
theorem c4_amended_failure_retries :
    (∀ (w : World) (id : Nat) (sel : Str),
      w.pending.find? (fun r => r.id = id) = some ⟨Kind.podcast, sel, id⟩ →
      (applyEvent (Event.reject id) w).panel.podcastData = none
      ∧ arePodcastButtonsDisabled (applyEvent (Event.reject id) w).panel = true)
    ∧ (∀ (w : World) (id : Nat) (sel : Str),
      w.prevSnap = some (snap w) →
      w.pending.find? (fun r => r.id = id) = some ⟨Kind.podcast, sel, id⟩ →
      w.selectedText ≠ [] →
      w.panel.isLoadingRelated = false →
      w.panel.isLoadingInsights = false →
      w.panel.isPodcastLoading = true →
      podcastCount (stepEvent (Event.reject id) w).issued = podcastCount w.issued + 1) := by
  constructor
  · intro w id sel h
    have hdata : (applyEvent (Event.reject id) w).panel.podcastData = none := by
      simp only [applyEvent]
      rw [h]
    exact ⟨hdata, by simp [arePodcastButtonsDisabled, hdata]⟩
  · intro w id sel hst h hne hlr hli hpl
    rw [podcastCount_stepEvent]
    have happ : (applyEvent (Event.reject id) w).prevSnap = w.prevSnap :=
      prevSnap_applyEvent _ w
    have hsnap : snap (applyEvent (Event.reject id) w)
        = { selectedText := w.selectedText
            isLoadingRelated := w.panel.isLoadingRelated
            isLoadingInsights := w.panel.isLoadingInsights
            podcastData := none
            isPodcastLoading := false } := by
      simp only [applyEvent]
      rw [h]
      rfl
    have hemp : w.selectedText.isEmpty = false := by
      cases hc : w.selectedText with
      | nil => exact absurd hc hne
      | cons a l => rfl
    have hfls : shouldFetchPodcast
        { selectedText := w.selectedText
          isLoadingRelated := w.panel.isLoadingRelated
          isLoadingInsights := w.panel.isLoadingInsights
          podcastData := none
          isPodcastLoading := false } = true := by
      simp [shouldFetchPodcast, hlr, hli, hemp]
    have hdec : decide ((⟨w.selectedText, w.panel.isLoadingRelated,
        w.panel.isLoadingInsights, none, false⟩ : Snapshot) ≠ snap w) = true := by
      simp only [decide_eq_true_eq]
      intro hc
      have hc' := congrArg Snapshot.isPodcastLoading hc
      simp only [snap] at hc'
      rw [hpl] at hc'
      cases hc'
    have hfire : podcastFires (applyEvent (Event.reject id) w) = true := by
      unfold podcastFires depsChanged2
      rw [happ, hst, hsnap]
      show (decide _ && shouldFetchPodcast _) = true
      rw [hdec, hfls]
      rfl
    rw [hfire]
    simp

/-- C4 witness: the amended theorem applied to the concrete world in
which selection `a` settled and its Related and Insights requests have
resolved, leaving Podcast request 2 in flight. -/
theorem c4_witness :
    ((applyEvent (Event.reject 2) (runEvents initWorld [Event.setSelected ['a'],
        Event.resolve 0 emptyData, Event.resolve 1 emptyData])).panel.podcastData = none
      ∧ arePodcastButtonsDisabled (applyEvent (Event.reject 2) (runEvents initWorld
        [Event.setSelected ['a'], Event.resolve 0 emptyData,
          Event.resolve 1 emptyData])).panel = true)
    ∧ podcastCount (stepEvent (Event.reject 2) (runEvents initWorld [Event.setSelected ['a'],
        Event.resolve 0 emptyData, Event.resolve 1 emptyData])).issued
      = podcastCount (runEvents initWorld [Event.setSelected ['a'], Event.resolve 0 emptyData,
        Event.resolve 1 emptyData]).issued + 1 :=
  ⟨c4_amended_failure_retries.1 _ 2 ['a'] (by decide),
   c4_amended_failure_retries.2 _ 2 ['a'] (by decide) (by decide) (by decide) (by decide)
     (by decide) (by decide)⟩

/-- C5 (confirmed): settling the identical non-empty selection again
while its epoch is current is a complete no-op: in a stabilised world
the prop write leaves the state unchanged, no effect dependency
changes, and no request is issued — the whole world is fixed. -/
theorem c5_identical_settle_noop (w : World)
    (hstable : w.prevSnap = some (snap w)) (_hne : w.selectedText ≠ []) :
    stepEvent (Event.setSelected w.selectedText) w = w := by
  have happ : applyEvent (Event.setSelected w.selectedText) w = w := rfl
  unfold stepEvent
  rw [happ]
  unfold flush
  rw [flushStep_of_stable w hstable, flushStep_of_stable w hstable]

/-- C5 witness: re-settling selection `a` in the concrete world reached
by settling it once is the identity. -/
theorem c5_witness :
    stepEvent (Event.setSelected (stepEvent (Event.setSelected ['a']) initWorld).selectedText)
        (stepEvent (Event.setSelected ['a']) initWorld)
      = stepEvent (Event.setSelected ['a']) initWorld :=
  c5_identical_settle_noop (stepEvent (Event.setSelected ['a']) initWorld)
    (by decide) (by decide)

/-- C6 (confirmed): a failed Related (resp. Insights) request degrades
to an empty result for its category, clears its loading flag, removes
only itself from the in-flight set (the sibling request is untouched),
leaves a dependency snapshot identical to the one a successful response
would leave — so it counts as settled for the Podcast trigger — and
leads to exactly the same number of issued Podcast requests as a
success would. -/
theorem c6_failure_degrades_settles :
    (∀ (w : World) (id : Nat) (sel : Str) (data : ResponseData),
      w.pending.find? (fun r => r.id = id) = some ⟨Kind.related, sel, id⟩ →
      (applyEvent (Event.reject id) w).panel.relatedSections = []
      ∧ (applyEvent (Event.reject id) w).panel.isLoadingRelated = false
      ∧ (applyEvent (Event.reject id) w).pending = w.pending.filter (fun q => q.id ≠ id)
      ∧ snap (applyEvent (Event.reject id) w) = snap (applyEvent (Event.resolve id data) w)
      ∧ podcastCount (stepEvent (Event.reject id) w).issued
          = podcastCount (stepEvent (Event.resolve id data) w).issued)
    ∧ (∀ (w : World) (id : Nat) (sel : Str) (data : ResponseData),
      w.pending.find? (fun r => r.id = id) = some ⟨Kind.insights, sel, id⟩ →
      (applyEvent (Event.reject id) w).panel.aiInsights = Insights.empty
      ∧ (applyEvent (Event.reject id) w).panel.isLoadingInsights = false
      ∧ (applyEvent (Event.reject id) w).pending = w.pending.filter (fun q => q.id ≠ id)
      ∧ snap (applyEvent (Event.reject id) w) = snap (applyEvent (Event.resolve id data) w)
      ∧ podcastCount (stepEvent (Event.reject id) w).issued
          = podcastCount (stepEvent (Event.resolve id data) w).issued) := by
  constructor
  · intro w id sel data h
    have hsnap : snap (applyEvent (Event.reject id) w)
        = snap (applyEvent (Event.resolve id data) w) := by
      simp only [applyEvent]
      rw [h]
      rfl
    refine ⟨?_, ?_, ?_, hsnap, ?_⟩
    · simp only [applyEvent]
      rw [h]
    · simp only [applyEvent]
      rw [h]
    · simp only [applyEvent]
      rw [h]
    · rw [podcastCount_stepEvent, podcastCount_stepEvent,
        podcastFires_congr (applyEvent (Event.reject id) w) (applyEvent (Event.resolve id data) w)
          (by rw [prevSnap_applyEvent, prevSnap_applyEvent]) hsnap]
  · intro w id sel data h
    have hsnap : snap (applyEvent (Event.reject id) w)
        = snap (applyEvent (Event.resolve id data) w) := by
      simp only [applyEvent]
      rw [h]
      rfl
    refine ⟨?_, ?_, ?_, hsnap, ?_⟩
    · simp only [applyEvent]
      rw [h]
    · simp only [applyEvent]
      rw [h]
    · simp only [applyEvent]
      rw [h]
    · rw [podcastCount_stepEvent, podcastCount_stepEvent,
        podcastFires_congr (applyEvent (Event.reject id) w) (applyEvent (Event.resolve id data) w)
          (by rw [prevSnap_applyEvent, prevSnap_applyEvent]) hsnap]

/-- C6 witness: the theorem applied to the concrete world in which
selection `a` just settled, rejecting its Related request 0. -/
theorem c6_witness :
    (applyEvent (Event.reject 0)
        (stepEvent (Event.setSelected ['a']) initWorld)).panel.relatedSections = []
    ∧ (applyEvent (Event.reject 0)
        (stepEvent (Event.setSelected ['a']) initWorld)).panel.isLoadingRelated = false
    ∧ (applyEvent (Event.reject 0) (stepEvent (Event.setSelected ['a']) initWorld)).pending
        = (stepEvent (Event.setSelected ['a']) initWorld).pending.filter (fun q => q.id ≠ 0)
    ∧ snap (applyEvent (Event.reject 0) (stepEvent (Event.setSelected ['a']) initWorld))
        = snap (applyEvent (Event.resolve 0 sampleRelatedData)
            (stepEvent (Event.setSelected ['a']) initWorld))
    ∧ podcastCount (stepEvent (Event.reject 0)
          (stepEvent (Event.setSelected ['a']) initWorld)).issued
        = podcastCount (stepEvent (Event.resolve 0 sampleRelatedData)
            (stepEvent (Event.setSelected ['a']) initWorld)).issued :=
  c6_failure_degrades_settles.1 (stepEvent (Event.setSelected ['a']) initWorld) 0 ['a']
    sampleRelatedData (by decide)

/-- C7 (confirmed, debouncer modelled from the spec): over any strictly
time-ordered sequence of non-empty arrivals, every settled emission
belongs to some arrival, occurs exactly one quiet period after it, and
no other arrival falls inside the waiting window; moreover every
non-empty arrival cancels the still-pending deadline and reschedules
emission one quiet period after itself. -/
theorem c7_debounce_quiet_period :
    (∀ (quiet : Nat) (evs : List (Nat × Str)) (T : Nat) (v : Str),
      evs.Pairwise (fun a b => a.1 < b.1) →
      (∀ e ∈ evs, e.2 ≠ ([] : Str)) →
      (T, v) ∈ debRun quiet evs ⟨[], none⟩ →
      ∃ t, (t, v) ∈ evs ∧ T = t + quiet ∧ ∀ e ∈ evs, e.1 ≤ t ∨ T < e.1)
    ∧ (∀ (quiet t : Nat) (v : Str) (rest : List (Nat × Str)) (st : DebState),
      v ≠ ([] : Str) →
      debRun quiet ((t, v) :: rest) st
        = debFired st t ++ debRun quiet rest ⟨v, some (t + quiet)⟩) := by
  constructor
  · intro quiet evs T v hpw hne hmem
    rcases debRun_attrib quiet evs ⟨[], none⟩ T v hpw hne hmem with h | h
    · exact Option.noConfusion h.1
    · exact h
  · exact fun quiet t v rest st hv => debRun_cons_ne quiet t v rest st hv

/-- C7 witness: a single arrival of `a` at time 0 settles exactly one
quiet period later. -/
theorem c7_witness :
    ∃ t, (t, (['a'] : Str)) ∈ [((0 : Nat), (['a'] : Str))] ∧ 2000 = t + DEBOUNCE_MS
      ∧ ∀ e ∈ [((0 : Nat), (['a'] : Str))], e.1 ≤ t ∨ 2000 < e.1 :=
  c7_debounce_quiet_period.1 DEBOUNCE_MS [(0, ['a'])] 2000 ['a']
    (by simp) (by decide) (by decide)

/-- C8 (the claim is right, the code is wrong): the spec and the
source's own comment promise the interval is cleared on unmount, but
the mount effect's cleanup closure captured `selectionInterval = null`
from the first render, so tearing the viewer down after a document was
loaded leaves interval 0 running; and two viewer loads whose closures
both captured the pre-setup value leave two intervals running at once. -/
theorem c8_interval_leak :
    (unmountPDFViewer (setupTextSelectionMonitoring none mountPDFViewer)).activeIntervals = [0]
    ∧ (setupTextSelectionMonitoring none (setupTextSelectionMonitoring none
        mountPDFViewer)).activeIntervals = [0, 1] := by
  decide

/-- C9 (confirmed): on every poll tick, a successful read with
non-empty trimmed text records that trimmed text; a NO_SELECTION
rejection records the empty string (a normal condition, not an error);
any other rejection records nothing, leaving the read to the next
tick. -/
theorem c9_poll_transitions :
    (∀ data : Str, jsTrim data ≠ [] → pollTick (PollResult.ok data) = some (jsTrim data))
    ∧ pollTick (PollResult.err NO_SELECTION) = some []
    ∧ (∀ code : Str, code ≠ NO_SELECTION → pollTick (PollResult.err code) = none) := by
  refine ⟨?_, ?_, ?_⟩
  · intro data h
    simp [pollTick, h]
  · simp [pollTick]
  · intro code h
    simp [pollTick, h]

/-- C9 witness: the theorem applied to a concrete successful read and a
concrete unrelated error code. -/
theorem c9_witness :
    pollTick (PollResult.ok ['a']) = some (jsTrim ['a'])
    ∧ pollTick (PollResult.err ['X']) = none :=
  ⟨c9_poll_transitions.1 ['a'] (by decide), c9_poll_transitions.2.2 ['X'] (by decide)⟩

/-- C10 (confirmed): every text the pipeline hands to `onTextSelect` is
non-empty and already trimmed: poller emissions are trimmed, debouncer
emissions are poller emissions (or the initial empty value), and the
consumer guard forwards only values with non-empty trim; moreover
whitespace-only reads are never recorded as the live selection and
empty or whitespace-only debounced values never invoke `onTextSelect`. -/
theorem c10_delivered_trimmed :
    (∀ (quiet : Nat) (evs : List (Nat × Str)) (T : Nat) (v t : Str),
      (∀ e ∈ evs, ∃ r, pollTick r = some e.2) →
      (T, v) ∈ debRun quiet evs ⟨[], none⟩ →
      onTextSelectArg v = some t →
      t ≠ [] ∧ jsTrim t = t ∧ jsTrim t ≠ [])
    ∧ (∀ data : Str, jsTrim data = [] → pollTick (PollResult.ok data) = none)
    ∧ (∀ v : Str, jsTrim v = [] → onTextSelectArg v = none) := by
  refine ⟨?_, ?_, ?_⟩
  · intro quiet evs T v t hpoll hmem harg
    have hv : jsTrim v = v := by
      rcases debRun_values quiet evs ⟨[], none⟩ T v hmem with ⟨tt, hmem'⟩ | hrec
      · obtain ⟨r, hr⟩ := hpoll (tt, v) hmem'
        exact pollTick_trimmed r v hr
      · subst hrec
        rfl
    unfold onTextSelectArg at harg
    by_cases hguard : v ≠ [] ∧ jsTrim v ≠ []
    · rw [if_pos hguard] at harg
      obtain rfl : v = t := by injection harg
      exact ⟨hguard.1, hv, hguard.2⟩
    · rw [if_neg hguard] at harg
      cases harg
  · intro data h
    simp [pollTick, h]
  · intro v h
    unfold onTextSelectArg
    rw [if_neg (fun hc => hc.2 h)]

/-- C10 witness: a concrete poller emission `a`, settled by the
debouncer and passed through the consumer guard, is non-empty and
trimmed. -/
theorem c10_witness :
    (['a'] : Str) ≠ [] ∧ jsTrim ['a'] = ['a'] ∧ jsTrim ['a'] ≠ [] :=
  c10_delivered_trimmed.1 DEBOUNCE_MS [(0, ['a'])] 2000 ['a'] ['a']
    (by
      intro e he
      simp only [List.mem_singleton] at he
      subst he
      exact ⟨PollResult.ok ['a'], by decide⟩)
    (by decide) (by decide)

end AdobeOrch
